import Mathlib

/-!
Verification of the GPS tracker ingestion pipeline (protocol adapters,
connection server, live broadcaster, notification dispatcher) against its
specification.  The Python source is shallowly embedded: byte strings are
`List Nat` (each entry one byte), text is `String`/`List Char`, Python
floats are modelled as exact rationals, and code that can raise returns
`Except PyErr`.
-/

set_option autoImplicit false

/-- Exceptions raised by the embedded Python code. -/
inductive PyErr where
  | valueError (msg : String)
  | typeError (msg : String)
  | attributeError (msg : String)
  deriving DecidableEq, Repr

/-! ## Python text primitives -/

/-- Characters removed by `str.strip()` with no argument. -/
def pyWhitespace (c : Char) : Bool :=
  c = ' ' || c = '\t' || c = '\n' || c = '\r' || c = '\x0b' || c = '\x0c'

/-- Model of `str.strip()`: drop whitespace from both ends. -/
def pyStrip (cs : List Char) : List Char :=
  ((cs.dropWhile pyWhitespace).reverse.dropWhile pyWhitespace).reverse

/-- Helper for `pySplit`: accumulates the current field in reverse. -/
def pySplitAux (sep : Char) : List Char → List Char → List (List Char)
  | [], acc => [acc.reverse]
  | c :: rest, acc =>
    if c = sep then acc.reverse :: pySplitAux sep rest []
    else pySplitAux sep rest (c :: acc)

/-- Model of `str.split(sep)` with a one-character separator and no limit. -/
def pySplit (sep : Char) (cs : List Char) : List (List Char) :=
  pySplitAux sep cs []

/-- Model of `str.split(sep, 1)`: split at the first occurrence of `sep`,
returning `none` when `sep` does not occur (also the model of `sep in s`). -/
def pySplitOnce (sep : Char) : List Char → Option (List Char × List Char)
  | [] => none
  | c :: rest =>
    if c = sep then some ([], rest)
    else (pySplitOnce sep rest).map (fun p => (c :: p.1, p.2))

/-- Model of `str.lower()` (ASCII case folding, which is all the server uses). -/
def pyLower (cs : List Char) : List Char :=
  cs.map Char.toLower

/-! ## Python `float(str)` parsing, with floats modelled as exact rationals.

`inf`/`nan` literals and digit-group underscores are not modelled: the
pipeline only ever meets plain decimal notation. -/

/-- Take a maximal run of ASCII decimal digits off the front of the input. -/
def takeDigits : List Char → List Nat × List Char
  | [] => ([], [])
  | c :: rest =>
    if c.isDigit then
      let p := takeDigits rest
      ((c.toNat - 48) :: p.1, p.2)
    else ([], c :: rest)

/-- Digits (most significant first) to a natural number. -/
def digitsToNat (ds : List Nat) : Nat :=
  ds.foldl (fun a d => a * 10 + d) 0

/-- Parse an optional exponent suffix `[+-]?digits`; the whole remainder must
be consumed. -/
def parseExpSuffix (cs : List Char) : Option Int :=
  let p : Int × List Char :=
    match cs with
    | '+' :: r => (1, r)
    | '-' :: r => (-1, r)
    | r => (1, r)
  let d := takeDigits p.2
  if d.1 = [] ∨ d.2 ≠ [] then none
  else some (p.1 * (digitsToNat d.1 : Int))

/-- Core of `float(str)` after stripping: sign, integer digits, optional
fraction, optional exponent.  Returns `none` exactly when CPython raises
`ValueError` (on the decimal grammar; see the section comment). -/
def parseFloatCore (cs : List Char) : Option ℚ :=
  let sp : ℚ × List Char :=
    match cs with
    | '+' :: r => (1, r)
    | '-' :: r => (-1, r)
    | r => (1, r)
  let ip := takeDigits sp.2
  let fp : List Nat × List Char :=
    match ip.2 with
    | '.' :: r => takeDigits r
    | r => ([], r)
  if ip.1 = [] ∧ fp.1 = [] then none
  else
    let mantissa : ℚ := (digitsToNat (ip.1 ++ fp.1) : ℚ) / (10 : ℚ) ^ fp.1.length
    match fp.2 with
    | [] => some (sp.1 * mantissa)
    | 'e' :: r =>
      (parseExpSuffix r).map (fun e => sp.1 * mantissa * (10 : ℚ) ^ e)
    | 'E' :: r =>
      (parseExpSuffix r).map (fun e => sp.1 * mantissa * (10 : ℚ) ^ e)
    | _ => none

/-- Model of Python `float(s)` on strings: strip whitespace, then parse. -/
def parseFloat (s : String) : Option ℚ :=
  parseFloatCore (pyStrip s.data)

/-- Strip trailing zeros of a fraction-digit string, keeping at least one
digit (CPython float repr prints `40.0`, `0.5`, ...). -/
def stripTrailingZeros (cs : List Char) : List Char :=
  let r := cs.reverse.dropWhile (fun c => c = '0')
  if r = [] then ['0'] else r.reverse

/-- Model of CPython float repr (used by f-strings) under the exact-rational
abstraction, for values whose denominator is a power of 2 and 5 — the only
values produced by the decimal notation this pipeline handles.  Scientific
notation for very large/small magnitudes is not modelled. -/
def floatRepr (q : ℚ) : String :=
  if q.den = 1 then toString q.num ++ ".0"
  else
    match (List.range 40).find? (fun k => 10 ^ k % q.den = 0) with
    | some k =>
      let scaled := q.num.natAbs * 10 ^ k / q.den
      let ip := scaled / 10 ^ k
      let frDigits := (toString (scaled % 10 ^ k)).data
      let padded := List.replicate (k - frDigits.length) '0' ++ frDigits
      (if q.num < 0 then "-" else "") ++ toString ip ++ "." ++
        String.mk (stripTrailingZeros padded)
    | none => toString q.num ++ "/" ++ toString q.den

/-- Python rendering of an optional float (`f"{x}"`, with `None` for absent). -/
def optFloatRepr : Option ℚ → String
  | none => "None"
  | some q => floatRepr q

/-! ## UTF-8 (models `bytes.decode()` / `str.encode()`) -/

/-- UTF-8 encoding of one unicode scalar value. -/
def utf8EncodeChar (c : Char) : List Nat :=
  let n := c.toNat
  if n < 128 then [n]
  else if n < 2048 then [192 + n / 64, 128 + n % 64]
  else if n < 65536 then [224 + n / 4096, 128 + n / 64 % 64, 128 + n % 64]
  else [240 + n / 262144, 128 + n / 4096 % 64, 128 + n / 64 % 64, 128 + n % 64]

/-- Model of `str.encode()`. -/
def utf8Encode (cs : List Char) : List Nat :=
  cs.foldr (fun c acc => utf8EncodeChar c ++ acc) []

/-- ASCII convenience wrapper used to build concrete byte fixtures. -/
def asciiBytes (s : String) : List Nat :=
  utf8Encode s.data

/-- Is `b` a UTF-8 continuation byte? -/
def isCont (b : Nat) : Prop :=
  128 ≤ b ∧ b < 192

instance (b : Nat) : Decidable (isCont b) := by
  unfold isCont; infer_instance

/-- Decode a single UTF-8 scalar from the front of a byte list, rejecting
overlong forms, surrogates and values above `0x10FFFF` exactly as CPython
strict decoding does. -/
def utf8DecodeOne : List Nat → Option (Char × List Nat)
  | [] => none
  | b :: rest =>
    if b < 128 then some (Char.ofNat b, rest)
    else if 194 ≤ b ∧ b ≤ 223 then
      match rest with
      | b1 :: r1 =>
        if isCont b1 then some (Char.ofNat ((b - 192) * 64 + (b1 - 128)), r1)
        else none
      | [] => none
    else if 224 ≤ b ∧ b ≤ 239 then
      match rest with
      | b1 :: b2 :: r2 =>
        let lo := if b = 224 then 160 else 128
        let hi := if b = 237 then 159 else 191
        if lo ≤ b1 ∧ b1 ≤ hi ∧ isCont b2 then
          some (Char.ofNat ((b - 224) * 4096 + (b1 - 128) * 64 + (b2 - 128)), r2)
        else none
      | _ => none
    else if 240 ≤ b ∧ b ≤ 244 then
      match rest with
      | b1 :: b2 :: b3 :: r3 =>
        let lo := if b = 240 then 144 else 128
        let hi := if b = 244 then 143 else 191
        if lo ≤ b1 ∧ b1 ≤ hi ∧ isCont b2 ∧ isCont b3 then
          some (Char.ofNat ((b - 240) * 262144 + (b1 - 128) * 4096 +
            (b2 - 128) * 64 + (b3 - 128)), r3)
        else none
      | _ => none
    else none

/-- Fuel-indexed strict UTF-8 decoding (fuel bounds the number of scalars;
the byte length always suffices). -/
def utf8DecodeAux : Nat → List Nat → Option (List Char)
  | _, [] => some []
  | 0, _ :: _ => none
  | fuel + 1, bs =>
    match utf8DecodeOne bs with
    | some (c, rest) => (utf8DecodeAux fuel rest).map (fun cs => c :: cs)
    | none => none

/-- Model of `bytes.decode()` (strict): `none` means `UnicodeDecodeError`. -/
def utf8Decode (bs : List Nat) : Option (List Char) :=
  utf8DecodeAux bs.length bs

/-- Fuel-indexed decoding with `errors="ignore"`: undecodable bytes are
skipped one at a time. -/
def utf8DecodeIgnoreAux : Nat → List Nat → List Char
  | _, [] => []
  | 0, _ :: _ => []
  | fuel + 1, b :: rest =>
    match utf8DecodeOne (b :: rest) with
    | some (c, r) => c :: utf8DecodeIgnoreAux fuel r
    | none => utf8DecodeIgnoreAux fuel rest

/-- Model of `bytes.decode(errors="ignore")`. -/
def utf8DecodeIgnore (bs : List Nat) : List Char :=
  utf8DecodeIgnoreAux bs.length bs

/-! ## Base64 (models CPython `base64.b64decode` in its default lenient mode)

The lenient decoder skips bytes outside the base64 alphabet, treats `=` as
padding only once two data characters of a group have been seen, stops as
soon as a group is completed by padding, and raises (here: `none`) when the
input ends inside a group. -/

/-- Value of one base64 alphabet byte, `none` for non-alphabet bytes. -/
def b64Val (b : Nat) : Option Nat :=
  if 65 ≤ b ∧ b ≤ 90 then some (b - 65)
  else if 97 ≤ b ∧ b ≤ 122 then some (b - 97 + 26)
  else if 48 ≤ b ∧ b ≤ 57 then some (b - 48 + 52)
  else if b = 43 then some 62
  else if b = 47 then some 63
  else none

/-- State machine of CPython `binascii.a2b_base64` (non-strict): arguments
are input, position in the current 4-character group, pending bits, count of
pad characters seen in this group, and the output accumulated in reverse. -/
def b64decodeAux : List Nat → Nat → Nat → Nat → List Nat → Option (List Nat)
  | [], quadPos, _, _, acc => if quadPos = 0 then some acc.reverse else none
  | b :: rest, quadPos, leftchar, pads, acc =>
    if b = 61 then
      if 2 ≤ quadPos then
        if 4 ≤ quadPos + (pads + 1) then some acc.reverse
        else b64decodeAux rest quadPos leftchar (pads + 1) acc
      else b64decodeAux rest quadPos leftchar pads acc
    else
      match b64Val b with
      | none => b64decodeAux rest quadPos leftchar pads acc
      | some v =>
        match quadPos with
        | 0 => b64decodeAux rest 1 v 0 acc
        | 1 => b64decodeAux rest 2 (v % 16) 0 ((leftchar * 4 + v / 16) :: acc)
        | 2 => b64decodeAux rest 3 (v % 4) 0 ((leftchar * 16 + v / 4) :: acc)
        | _ => b64decodeAux rest 0 0 0 ((leftchar * 64 + v) :: acc)

/-- Model of `base64.b64decode(payload)` with default `validate=False`:
`none` models `binascii.Error`. -/
def b64decodeLenient (bs : List Nat) : Option (List Nat) :=
  b64decodeAux bs 0 0 0 []

/-! ## JSON values (model of `json.loads` results)

Mutual inductives are used instead of a nested `List` so that structural
recursion (and hence kernel evaluation) works.  Python json distinguishes
`int` and `float` literals, recorded in the `isFloat` flag. -/

mutual
inductive JsonValue where
  | null
  | bool (b : Bool)
  | num (isFloat : Bool) (val : ℚ)
  | str (s : String)
  | arr (items : JsonArray)
  | obj (fields : JsonFields)
inductive JsonArray where
  | nil
  | cons (head : JsonValue) (tail : JsonArray)
inductive JsonFields where
  | nil
  | cons (key : String) (val : JsonValue) (tail : JsonFields)
end

/-- Left brace character, kept out of string literals. -/
def lbraceChar : Char := Char.ofNat 123

/-- Right brace character, kept out of string literals. -/
def rbraceChar : Char := Char.ofNat 125

/-- Single-quote character as a string. -/
def pyQuote : String := String.mk [Char.ofNat 39]

/-- Left brace as a string. -/
def lbrace : String := String.mk [lbraceChar]

/-- Right brace as a string. -/
def rbrace : String := String.mk [rbraceChar]

mutual
/-- Model of Python `repr()` on json-decoded values (string escaping inside
`repr` is not modelled; the pipeline never renders containers). -/
def pyReprJson : JsonValue → String
  | .null => "None"
  | .bool b => if b then "True" else "False"
  | .num f q => if f then floatRepr q else toString q.num
  | .str s => pyQuote ++ s ++ pyQuote
  | .arr items => "[" ++ pyReprArr items ++ "]"
  | .obj fields => lbrace ++ pyReprFields fields ++ rbrace
/-- Comma-joined reprs of array elements. -/
def pyReprArr : JsonArray → String
  | .nil => ""
  | .cons v .nil => pyReprJson v
  | .cons v rest => pyReprJson v ++ ", " ++ pyReprArr rest
/-- Comma-joined reprs of object members. -/
def pyReprFields : JsonFields → String
  | .nil => ""
  | .cons k v .nil => pyQuote ++ k ++ pyQuote ++ ": " ++ pyReprJson v
  | .cons k v rest => pyQuote ++ k ++ pyQuote ++ ": " ++ pyReprJson v ++ ", " ++ pyReprFields rest
end

/-- Model of Python `str()` on json-decoded values. -/
def pyStrJson : JsonValue → String
  | .null => "None"
  | .bool b => if b then "True" else "False"
  | .num f q => if f then floatRepr q else toString q.num
  | .str s => s
  | .arr items => "[" ++ pyReprArr items ++ "]"
  | .obj fields => lbrace ++ pyReprFields fields ++ rbrace

/-- Model of Python truthiness on json-decoded values. -/
def pyTruthy : JsonValue → Bool
  | .null => false
  | .bool b => b
  | .num _ q => q.num != 0
  | .str s => s != ""
  | .arr .nil => false
  | .arr (.cons _ _) => true
  | .obj .nil => false
  | .obj (.cons _ _ _) => true

/-- Last binding of `key` in a member list: Python `json.loads` lets later
duplicate keys override earlier ones. -/
def jsonFieldsGet : JsonFields → String → Option JsonValue
  | .nil, _ => none
  | .cons k v rest, key =>
    match jsonFieldsGet rest key with
    | some r => some r
    | none => if k = key then some v else none

/-- Model of `dict.get(key)` on a json-decoded object.  JSON `null` decodes
to Python `None`, which `dict.get` cannot distinguish from a missing key, so
both are collapsed to `none`. -/
def pyDictGet (fs : JsonFields) (key : String) : Option JsonValue :=
  match jsonFieldsGet fs key with
  | some JsonValue.null => none
  | r => r

/-- Model of `str()` applied to a `dict.get` result. -/
def pyStrOpt : Option JsonValue → String
  | none => "None"
  | some v => pyStrJson v

/-- Model of `float()` applied to a `dict.get` result. -/
def pyFloatV : Option JsonValue → Except PyErr ℚ
  | none => .error (.typeError "float() argument must be a string or a real number, not NoneType")
  | some JsonValue.null => .error (.typeError "float() argument must be a string or a real number, not NoneType")
  | some (JsonValue.num _ q) => .ok q
  | some (JsonValue.str s) =>
    match parseFloat s with
    | some q => .ok q
    | none => .error (.valueError ("could not convert string to float: " ++ s))
  | some (JsonValue.bool b) => .ok (if b then 1 else 0)
  | some (JsonValue.arr _) => .error (.typeError "float() argument must be a string or a real number")
  | some (JsonValue.obj _) => .error (.typeError "float() argument must be a string or a real number")

/-! ## JSON parsing (model of `json.loads`) -/

/-- JSON whitespace. -/
def jsonWs (c : Char) : Bool :=
  c = ' ' || c = '\t' || c = '\n' || c = '\r'

/-- Skip JSON whitespace. -/
def skipJsonWs (cs : List Char) : List Char :=
  cs.dropWhile jsonWs

/-- Expect a literal suffix such as `ull` after `n`. -/
def expectLit : List Char → List Char → Option (List Char)
  | [], cs => some cs
  | e :: es, c :: cs => if c = e then expectLit es cs else none
  | _ :: _, [] => none

/-- Hexadecimal digit value. -/
def hexVal (c : Char) : Option Nat :=
  if c.isDigit then some (c.toNat - 48)
  else if 'a' ≤ c ∧ c ≤ 'f' then some (c.toNat - 97 + 10)
  else if 'A' ≤ c ∧ c ≤ 'F' then some (c.toNat - 65 + 10)
  else none

/-- Body of a JSON string after the opening quote; returns the decoded
characters and the input after the closing quote.  Raw control characters
are rejected as `json.loads` does by default; `\uXXXX` escapes that denote
surrogates are not modelled (they produce Python lone-surrogate strings,
which `Char` cannot hold and the pipeline never meets). -/
def jsonParseStringBody : List Char → Option (List Char × List Char)
  | [] => none
  | '"' :: r => some ([], r)
  | '\\' :: e :: r =>
    if e = '"' then (jsonParseStringBody r).map (fun p => ('"' :: p.1, p.2))
    else if e = '\\' then (jsonParseStringBody r).map (fun p => ('\\' :: p.1, p.2))
    else if e = '/' then (jsonParseStringBody r).map (fun p => ('/' :: p.1, p.2))
    else if e = 'b' then (jsonParseStringBody r).map (fun p => (Char.ofNat 8 :: p.1, p.2))
    else if e = 'f' then (jsonParseStringBody r).map (fun p => (Char.ofNat 12 :: p.1, p.2))
    else if e = 'n' then (jsonParseStringBody r).map (fun p => ('\n' :: p.1, p.2))
    else if e = 'r' then (jsonParseStringBody r).map (fun p => ('\r' :: p.1, p.2))
    else if e = 't' then (jsonParseStringBody r).map (fun p => ('\t' :: p.1, p.2))
    else if e = 'u' then
      match r with
      | h1 :: h2 :: h3 :: h4 :: r2 =>
        match hexVal h1, hexVal h2, hexVal h3, hexVal h4 with
        | some a, some b, some c, some d =>
          let code := a * 4096 + b * 256 + c * 16 + d
          if 55296 ≤ code ∧ code ≤ 57343 then none
          else (jsonParseStringBody r2).map (fun p => (Char.ofNat code :: p.1, p.2))
        | _, _, _, _ => none
      | _ => none
    else none
  | c :: r =>
    if c.toNat < 32 then none
    else (jsonParseStringBody r).map (fun p => (c :: p.1, p.2))

/-- Exponent part of a JSON number after `e`/`E`: optional sign and digits.
Returns the digits, the sign, and the remaining input. -/
def jsonParseExp (cs : List Char) : Option (Bool × List Nat × List Char) :=
  let p : Bool × List Char :=
    match cs with
    | '+' :: r => (false, r)
    | '-' :: r => (true, r)
    | r => (false, r)
  let d := takeDigits p.2
  if d.1 = [] then none else some (p.1, d.1, d.2)

/-- Model of JSON number parsing (strict grammar: no leading zeros, digits
required around the decimal point). -/
def jsonParseNumber (cs : List Char) : Option (JsonValue × List Char) :=
  let sp : Bool × List Char :=
    match cs with
    | '-' :: r => (true, r)
    | r => (false, r)
  let ip := takeDigits sp.2
  if ip.1 = [] then none
  else if ip.1.length > 1 ∧ ip.1.head? = some 0 then none
  else
    let fr : Option (List Nat) × List Char :=
      match ip.2 with
      | '.' :: r =>
        let t := takeDigits r
        (if t.1 = [] then none else some t.1, t.2)
      | r => (some [], r)
    match fr.1 with
    | none => none
    | some fds =>
      let hasFrac := decide (ip.2 ≠ fr.2)
      let mkNum (expNeg : Bool) (eds : List Nat) (rest : List Char) (hasExp : Bool) :
          Option (JsonValue × List Char) :=
        let e := digitsToNat eds
        let sgn : Int := if sp.1 then -1 else 1
        let mant : Int := (digitsToNat (ip.1 ++ fds) : Int)
        let v : ℚ :=
          if expNeg then mkRat (sgn * mant) (10 ^ (fds.length + e))
          else mkRat (sgn * mant * 10 ^ e) (10 ^ fds.length)
        some (JsonValue.num (hasFrac || hasExp) v, rest)
      match fr.2 with
      | 'e' :: r =>
        match jsonParseExp r with
        | some (en, eds, rest) => mkNum en eds rest true
        | none => none
      | 'E' :: r =>
        match jsonParseExp r with
        | some (en, eds, rest) => mkNum en eds rest true
        | none => none
      | rest => mkNum false [] rest false

mutual
/-- Fuel-indexed JSON value parser (the fuel bounds nesting and iteration;
input length plus two always suffices). -/
def jsonParseValue : Nat → List Char → Option (JsonValue × List Char)
  | 0, _ => none
  | fuel + 1, cs0 =>
    match skipJsonWs cs0 with
    | [] => none
    | c :: r =>
      if c = '"' then
        (jsonParseStringBody r).map (fun p => (JsonValue.str (String.mk p.1), p.2))
      else if c = '[' then
        match skipJsonWs r with
        | ']' :: r2 => some (JsonValue.arr JsonArray.nil, r2)
        | r1 => (jsonParseElems fuel r1).map (fun p => (JsonValue.arr p.1, p.2))
      else if c = lbraceChar then
        match skipJsonWs r with
        | [] => none
        | c2 :: r2 =>
          if c2 = rbraceChar then some (JsonValue.obj JsonFields.nil, r2)
          else (jsonParseMembers fuel (c2 :: r2)).map (fun p => (JsonValue.obj p.1, p.2))
      else if c = 'n' then (expectLit ['u', 'l', 'l'] r).map (fun r2 => (JsonValue.null, r2))
      else if c = 't' then (expectLit ['r', 'u', 'e'] r).map (fun r2 => (JsonValue.bool true, r2))
      else if c = 'f' then (expectLit ['a', 'l', 's', 'e'] r).map (fun r2 => (JsonValue.bool false, r2))
      else jsonParseNumber (c :: r)
/-- Array elements after the opening bracket (nonempty case). -/
def jsonParseElems : Nat → List Char → Option (JsonArray × List Char)
  | 0, _ => none
  | fuel + 1, cs =>
    match jsonParseValue fuel cs with
    | none => none
    | some (v, rest) =>
      match skipJsonWs rest with
      | ',' :: r2 => (jsonParseElems fuel r2).map (fun p => (JsonArray.cons v p.1, p.2))
      | ']' :: r2 => some (JsonArray.cons v JsonArray.nil, r2)
      | _ => none
/-- Object members after the opening brace (nonempty case). -/
def jsonParseMembers : Nat → List Char → Option (JsonFields × List Char)
  | 0, _ => none
  | fuel + 1, cs =>
    match skipJsonWs cs with
    | '"' :: r =>
      match jsonParseStringBody r with
      | none => none
      | some (key, rest) =>
        match skipJsonWs rest with
        | ':' :: r2 =>
          match jsonParseValue fuel r2 with
          | none => none
          | some (v, rest2) =>
            match skipJsonWs rest2 with
            | ',' :: r3 =>
              (jsonParseMembers fuel r3).map
                (fun p => (JsonFields.cons (String.mk key) v p.1, p.2))
            | c3 :: r3 =>
              if c3 = rbraceChar then
                some (JsonFields.cons (String.mk key) v JsonFields.nil, r3)
              else none
            | [] => none
        | _ => none
    | _ => none
end

/-- Model of `json.loads`: parse one value and require only whitespace to
remain.  `none` models `json.JSONDecodeError`. -/
def jsonParse (s : String) : Option JsonValue :=
  match jsonParseValue (s.data.length + 2) s.data with
  | some (v, rest) => if skipJsonWs rest = [] then some v else none
  | none => none

/-! ## Timestamps (model of `datetime.fromisoformat`) -/

/-- The result of a successful `datetime.fromisoformat` call, kept as plain
calendar fields. -/
structure IsoDateTime where
  year : Nat
  month : Nat
  day : Nat
  hour : Nat
  minute : Nat
  second : Nat
  microsecond : Nat
  deriving DecidableEq, Repr

/-- Days in a month of the proleptic Gregorian calendar. -/
def daysInMonth (year month : Nat) : Nat :=
  if month = 2 then
    if year % 4 = 0 ∧ (year % 100 ≠ 0 ∨ year % 400 = 0) then 29 else 28
  else if month = 4 ∨ month = 6 ∨ month = 9 ∨ month = 11 then 30
  else 31

/-- Read exactly `n` decimal digits. -/
def takeFixedDigits : Nat → List Char → Option (Nat × List Char)
  | 0, cs => some (0, cs)
  | n + 1, c :: cs =>
    if c.isDigit then
      (takeFixedDigits n cs).map (fun p => ((c.toNat - 48) * 10 ^ n + p.1, p.2))
    else none
  | _ + 1, [] => none

/-- Model of `datetime.fromisoformat`, restricted to the
`YYYY-MM-DD[{T, }HH:MM[:SS[.fff[fff]]]]` forms the device payloads use (no
timezone offsets).  `none` models the `ValueError` it raises. -/
def fromIso (s : String) : Option IsoDateTime :=
  match takeFixedDigits 4 s.data with
  | none => none
  | some (y, r1) =>
    match r1 with
    | '-' :: r2 =>
      match takeFixedDigits 2 r2 with
      | none => none
      | some (mo, r3) =>
        match r3 with
        | '-' :: r4 =>
          match takeFixedDigits 2 r4 with
          | none => none
          | some (d, r5) =>
            if mo < 1 ∨ 12 < mo ∨ d < 1 ∨ daysInMonth y mo < d then none
            else
              match r5 with
              | [] => some ⟨y, mo, d, 0, 0, 0, 0⟩
              | sep :: r6 =>
                if sep ≠ 'T' ∧ sep ≠ ' ' then none
                else
                  match takeFixedDigits 2 r6 with
                  | none => none
                  | some (h, r7) =>
                    match r7 with
                    | ':' :: r8 =>
                      match takeFixedDigits 2 r8 with
                      | none => none
                      | some (mi, r9) =>
                        if 23 < h ∨ 59 < mi then none
                        else
                          match r9 with
                          | [] => some ⟨y, mo, d, h, mi, 0, 0⟩
                          | ':' :: r10 =>
                            match takeFixedDigits 2 r10 with
                            | none => none
                            | some (sec, r11) =>
                              if 59 < sec then none
                              else
                                match r11 with
                                | [] => some ⟨y, mo, d, h, mi, sec, 0⟩
                                | '.' :: r12 =>
                                  match takeFixedDigits 6 r12 with
                                  | some (us, []) => some ⟨y, mo, d, h, mi, sec, us⟩
                                  | _ =>
                                    match takeFixedDigits 3 r12 with
                                    | some (ms, []) => some ⟨y, mo, d, h, mi, sec, ms * 1000⟩
                                    | _ => none
                                | _ => none
                          | _ => none
                    | _ => none
        | _ => none
    | _ => none

/-! ## Canonical positions (`protocols.DecodedPosition`) -/

/-- Embedding of `protocols.DecodedPosition`.  Floats are exact rationals;
`event_type` keeps the raw json-decoded value exactly as the Python
dataclass does; `timestamp` is the parsed ISO timestamp when a device
supplied one. -/
structure DecodedPosition where
  device_id : String
  latitude : ℚ
  longitude : ℚ
  speed : Option ℚ := none
  course : Option ℚ := none
  event_type : Option JsonValue := none
  timestamp : Option IsoDateTime := none

/-! ## Teltonika adapter (`protocols.TeltonikaAdapter`) -/

/-- The fallback record `decode_message` substitutes when the payload is not
valid JSON (or not decodable text). -/
def teltonikaFallback : JsonValue :=
  JsonValue.obj (.cons "id" (.str "unknown")
    (.cons "lat" (.num false 0) (.cons "lon" (.num false 0) .nil)))

/-- The timestamp expression of `TeltonikaAdapter.decode_message`:
`datetime.fromisoformat(decoded["ts"]) if decoded.get("ts") else None`. -/
def teltonikaTs (fields : JsonFields) : Except PyErr (Option IsoDateTime) :=
  match pyDictGet fields "ts" with
  | none => .ok none
  | some v =>
    if pyTruthy v then
      match v with
      | JsonValue.str s =>
        match fromIso s with
        | some t => .ok (some t)
        | none => .error (.valueError ("Invalid isoformat string: " ++ s))
      | _ => .error (.typeError "fromisoformat: argument must be str")
    else .ok none

/-- Body of `TeltonikaAdapter.decode_message` after `json.loads` (or the
fallback dict): builds the `DecodedPosition` field by field, raising where
the Python constructor-argument expressions raise. -/
def teltonikaFromJson : JsonValue → Except PyErr DecodedPosition
  | JsonValue.obj fields =>
    let device_id := pyStrOpt (pyDictGet fields "id")
    (pyFloatV (pyDictGet fields "lat")).bind fun latitude =>
    (pyFloatV (pyDictGet fields "lon")).bind fun longitude =>
    (match pyDictGet fields "speed" with
      | none => Except.ok (none : Option ℚ)
      | some v => (pyFloatV (some v)).map some).bind fun speed =>
    (match pyDictGet fields "course" with
      | none => Except.ok (none : Option ℚ)
      | some v => (pyFloatV (some v)).map some).bind fun course =>
    (teltonikaTs fields).bind fun timestamp =>
    .ok { device_id, latitude, longitude, speed, course,
          event_type := pyDictGet fields "event", timestamp }
  | _ => .error (.attributeError "decoded value has no attribute get")

/-- Embedding of `TeltonikaAdapter.decode_message`: try to decode the bytes
as JSON text, substituting the sentinel dict on any failure, then build the
position. -/
def teltonikaDecode (payload : List Nat) : Except PyErr DecodedPosition :=
  let decoded :=
    match utf8Decode payload with
    | none => teltonikaFallback
    | some cs =>
      match jsonParse (String.mk cs) with
      | some v => v
      | none => teltonikaFallback
  teltonikaFromJson decoded

/-! ## Queclink adapter (`protocols.QueclinkAdapter`) -/

/-- Model of `float(s)` raising `ValueError` on unparsable text. -/
def pyFloatStr (cs : List Char) : Except PyErr ℚ :=
  match parseFloatCore (pyStrip cs) with
  | some q => .ok q
  | none => .error (.valueError ("could not convert string to float: " ++ String.mk cs))

/-- Embedding of `QueclinkAdapter.decode_message`: decode the bytes with
errors ignored, split on commas, and read fields at fixed indices (1, 7, 8,
11, 12), the numeric ones through `float`. -/
def queclinkDecode (payload : List Nat) : Except PyErr DecodedPosition :=
  let parts := pySplit ',' (utf8DecodeIgnore payload)
  let device_id := if parts.length > 1 then String.mk parts[1]! else "unknown"
  (if parts.length > 7 then pyFloatStr parts[7]! else Except.ok 0).bind fun latitude =>
  (if parts.length > 8 then pyFloatStr parts[8]! else Except.ok 0).bind fun longitude =>
  (if parts.length > 11 then (pyFloatStr parts[11]!).map some
    else Except.ok none).bind fun speed =>
  (if parts.length > 12 then (pyFloatStr parts[12]!).map some
    else Except.ok none).bind fun course =>
  .ok { device_id, latitude, longitude, speed, course,
        event_type := some (JsonValue.str "queclink") }

/-- Embedding of `QueclinkAdapter.simulate_payload`: the emitted frame is
`+RESP:GTFRI,<device>,,,,,,<lat>,<lon>,,,,,<speed>,<course>`. -/
def queclinkSimulate (position : DecodedPosition) : List Nat :=
  utf8Encode
    ("+RESP:GTFRI," ++ position.device_id ++ ",,,,,," ++
      floatRepr position.latitude ++ "," ++ floatRepr position.longitude ++
      ",,,,," ++ optFloatRepr position.speed ++ "," ++
      optFloatRepr position.course).data

/-! ## Concox adapter (`protocols.ConcoxAdapter`) -/

/-- Lowercase hex digit. -/
def hexDigit (n : Nat) : Char :=
  if n < 10 then Char.ofNat (48 + n) else Char.ofNat (97 + n - 10)

/-- Model of `bytes.hex()`. -/
def bytesToHex : List Nat → List Char
  | [] => []
  | b :: rest => hexDigit (b / 16) :: hexDigit (b % 16) :: bytesToHex rest

/-- Big-endian signed 32-bit integer from 4 bytes
(`int.from_bytes(_, "big", signed=True)`). -/
def int32be (bs : List Nat) : Int :=
  let u : Nat := bs.foldl (fun a b => a * 256 + b % 256) 0
  if 2 ^ 31 ≤ u then (u : Int) - 2 ^ 32 else (u : Int)

/-- The `decoded` bytes of `ConcoxAdapter.decode_message`: the base64
decoding of the payload, or the raw payload itself when `b64decode`
raises. -/
def concoxContent (payload : List Nat) : List Nat :=
  match b64decodeLenient payload with
  | some d => d
  | none => payload

/-- The sentinel returned for truncated frames. -/
def concoxSentinel : DecodedPosition :=
  { device_id := "unknown", latitude := 0, longitude := 0 }

/-- Embedding of `ConcoxAdapter.decode_message`: contents shorter than 12
bytes give the sentinel; otherwise the first 4 bytes (as hex) are the
device id and the next two big-endian signed 32-bit words, divided by
1,000,000, are the coordinates. -/
def concoxDecode (payload : List Nat) : DecodedPosition :=
  let decoded := concoxContent payload
  if decoded.length < 12 then concoxSentinel
  else
    let latitude : ℚ := mkRat (int32be ((decoded.drop 4).take 4)) 1000000
    let longitude : ℚ := mkRat (int32be ((decoded.drop 8).take 4)) 1000000
    let device_id := String.mk (bytesToHex (decoded.take 4))
    { device_id, latitude, longitude, event_type := some (JsonValue.str "concox") }

/-! ## Adapter lookup (`protocols.get_adapter` / `protocols.decode_with`) -/

/-- The three adapters of the lookup table. -/
inductive AdapterTag where
  | teltonika
  | queclink
  | concox
  deriving DecidableEq, Repr

/-- The lookup table of `get_adapter`, keyed by the lowered name. -/
def adapterLookup (name : String) : Option AdapterTag :=
  if name = "teltonika" then some .teltonika
  else if name = "queclink" then some .queclink
  else if name = "concox" then some .concox
  else none

/-- Embedding of `get_adapter`: lower the tag, look it up, raise `ValueError`
when it is not in the table. -/
def getAdapter (protocol : String) : Except PyErr AdapterTag :=
  match adapterLookup (String.mk (pyLower protocol.data)) with
  | some a => .ok a
  | none => .error (.valueError ("Protocolo no soportado: " ++ protocol))

/-- Dispatch to one adapter's `decode_message`. -/
def adapterDecode : AdapterTag → List Nat → Except PyErr DecodedPosition
  | .teltonika => teltonikaDecode
  | .queclink => queclinkDecode
  | .concox => fun payload => .ok (concoxDecode payload)

/-- Embedding of `decode_with`. -/
def decodeWith (protocol : String) (payload : List Nat) : Except PyErr DecodedPosition :=
  match getAdapter protocol with
  | .error e => .error e
  | .ok a => adapterDecode a payload

/-! ## Connection server (`gps_server.GPSServer`) -/

/-- The optional-field expressions of `GPSServer._decode_message`:
`float(x) if x else None` under `try/except ValueError`, so an empty or
unparsable field degrades to absent. -/
def genericOptField (cs : List Char) : Option ℚ :=
  if cs = [] then none
  else
    match parseFloatCore (pyStrip cs) with
    | some q => some q
    | none => none

/-- Embedding of the generic CSV fallback branch of
`GPSServer._decode_message`: unpack at least device id, latitude and
longitude, then optional speed and course. -/
def genericDecode (message : String) : Except PyErr DecodedPosition :=
  let parts := pySplit ',' message.data
  if parts.length < 3 then
    .error (.valueError "not enough values to unpack (expected at least 3)")
  else
    (pyFloatStr parts[1]!).bind fun latitude =>
    (pyFloatStr parts[2]!).bind fun longitude =>
    let rest := parts.drop 3
    let speed := match rest.head? with
      | none => none
      | some f => genericOptField f
    let course := match (rest.drop 1).head? with
      | none => none
      | some f => genericOptField f
    .ok { device_id := String.mk parts[0]!, latitude, longitude, speed, course }

/-- Embedding of `GPSServer._decode_message`: a `protocol|payload` line goes
through the adapter lookup, anything else through the generic CSV
fallback. -/
def decodeMessage (message : String) : Except PyErr DecodedPosition :=
  match pySplitOnce '|' message.data with
  | some (protocol, raw) =>
    decodeWith (String.mk (pyStrip protocol)) (utf8Encode raw)
  | none => genericDecode message

/-- Embedding of the read loop of `GPSServer.handle_client` over the finite
list of byte lines a connection delivers.  `saveOk` models the external
`save_position` contract (`false` means it raises).  The result is the list
of persisted positions and whether the loop died with an uncaught
exception: the `bytes.decode()` of each line happens before the `try`
block, so invalid UTF-8 propagates and terminates the handler, while
decode and persistence exceptions inside the `try` only drop the line. -/
def handleClient (saveOk : DecodedPosition → Bool) :
    List (List Nat) → List DecodedPosition × Bool
  | [] => ([], false)
  | line :: rest =>
    match utf8Decode line with
    | none => ([], true)
    | some cs =>
      let message := String.mk (pyStrip cs)
      let step : Option DecodedPosition :=
        match decodeMessage message with
        | .error _ => none
        | .ok pos => if saveOk pos then some pos else none
      let tail := handleClient saveOk rest
      match step with
      | some pos => (pos :: tail.1, tail.2)
      | none => tail

/-! ## Live broadcaster (`api.LiveBroadcaster`)

Subscribers (WebSocket handles) are identified by numbers; whether a given
send succeeds is an environment parameter `env` (the network).  Payloads
are an arbitrary type, matching the opaque `dict` the code forwards. -/

/-- The mutable state of `LiveBroadcaster`: the subscriber set (as a list,
with set semantics maintained by `register`) and the SSE event queue. -/
structure BState (α : Type) where
  connections : List Nat
  queue : List α

/-- Embedding of `LiveBroadcaster.register` (after the `accept` handshake):
`set.add`. -/
def bRegister {α : Type} (st : BState α) (w : Nat) : BState α :=
  if w ∈ st.connections then st
  else { st with connections := st.connections ++ [w] }

/-- Embedding of `LiveBroadcaster.unregister`: `set.discard`, a no-op when
the handle is absent. -/
def bUnregister {α : Type} (st : BState α) (w : Nat) : BState α :=
  { st with connections := st.connections.filter (fun c => c ≠ w) }

/-- Embedding of `LiveBroadcaster.broadcast`: attempt a send to every
connection in the set (collecting the failing ones in `stale`), then
unregister each stale connection, then append the payload to the event
queue.  The first component lists the connections a send was attempted on,
in iteration order. -/
def broadcast {α : Type} (env : Nat → α → Bool) (st : BState α) (payload : α) :
    List Nat × BState α :=
  let stale := st.connections.filter (fun c => !env c payload)
  let conns := stale.foldl (fun cs c => cs.filter (fun x => x ≠ c)) st.connections
  (st.connections, { connections := conns, queue := st.queue ++ [payload] })

/-! ## Notifications (`integrations.notifications`) -/

/-- Embedding of `NotificationMessage` (metadata values restricted to the
strings the pipeline stores there). -/
structure NotificationMessage where
  channel : String
  recipient : String
  subject : Option String := none
  body : Option String := none
  metadata : List (String × String) := []
  deriving DecidableEq, Repr

/-- Model of `dict.get` on the metadata mapping. -/
def metaGet (md : List (String × String)) (key : String) : Option String :=
  match md.find? (fun kv => kv.1 == key) with
  | some kv => some kv.2
  | none => none

/-- Embedding of `EmailProvider` configuration. -/
structure EmailProvider where
  sender : String
  deriving DecidableEq, Repr

/-- Embedding of `SmsProvider` configuration. -/
structure SmsProvider where
  from_number : String
  deriving DecidableEq, Repr

/-- Embedding of `PushProvider` configuration. -/
structure PushProvider where
  fcm_key : Option String := none
  apns_key : Option String := none
  deriving DecidableEq, Repr

/-- The dict each provider's `send` returns, with the dict keys as named
fields. -/
inductive SendResult where
  | emailResult (provider recipient : String) (subject : Option String)
  | smsResult (provider recipient fromNumber : String)
  | pushResult (provider target : String) (title : Option String)
  deriving DecidableEq, Repr

/-- Embedding of `EmailProvider.send`. -/
def emailSend (_p : EmailProvider) (m : NotificationMessage) : SendResult :=
  .emailResult "ses" m.recipient m.subject

/-- Embedding of `SmsProvider.send`. -/
def smsSend (p : SmsProvider) (m : NotificationMessage) : SendResult :=
  .smsResult "twilio" m.recipient p.from_number

/-- Python truthiness of an optional string (used by `or` and the
`"fcm" if self.fcm_key else "apns"` expression). -/
def pyTruthyStrOpt : Option String → Bool
  | none => false
  | some s => s != ""

/-- Embedding of `PushProvider.send`: the target is
`metadata.get("device_token") or recipient` and the platform is
`metadata.get("platform", "fcm" if fcm_key else "apns")`. -/
def pushSend (p : PushProvider) (m : NotificationMessage) : SendResult :=
  let target :=
    match metaGet m.metadata "device_token" with
    | some t => if t ≠ "" then t else m.recipient
    | none => m.recipient
  let platform :=
    match metaGet m.metadata "platform" with
    | some pl => pl
    | none => if pyTruthyStrOpt p.fcm_key then "fcm" else "apns"
  .pushResult platform target m.subject

/-- The three channels of the `_routes` table. -/
inductive Channel where
  | email
  | sms
  | push
  deriving DecidableEq, Repr

/-- The `_routes` dict lookup of `NotificationDispatcher`: which provider's
`send` the channel name maps to (`none` models a missing handler). -/
def routeOf (channel : String) : Option Channel :=
  if channel = "email" then some .email
  else if channel = "sms" then some .sms
  else if channel = "push" then some .push
  else none

/-- Embedding of `NotificationDispatcher` (the three providers it routes
to). -/
structure NotificationDispatcher where
  email_provider : EmailProvider
  sms_provider : SmsProvider
  push_provider : PushProvider
  deriving DecidableEq, Repr

/-- Embedding of `NotificationDispatcher.dispatch`: look up the handler by
channel, raise `ValueError` when there is none, otherwise invoke exactly
that provider's `send` and return its result. -/
def dispatch (d : NotificationDispatcher) (m : NotificationMessage) :
    Except PyErr SendResult :=
  match routeOf m.channel with
  | none => .error (.valueError ("Canal no soportado: " ++ m.channel))
  | some .email => .ok (emailSend d.email_provider m)
  | some .sms => .ok (smsSend d.sms_provider m)
  | some .push => .ok (pushSend d.push_provider m)

/-! ## Claim theorems -/

/-- C6: for every byte payload whose binary content (the base64 decoding,
or the raw bytes when that raises) is shorter than 12 bytes, the Concox
decoder returns the sentinel position `("unknown", 0, 0)` — it is a total
function, so it never raises — and for contents of at least 12 bytes the
device id is the first 4 bytes rendered as hex and the coordinates are the
next two big-endian signed 32-bit integers divided by 1,000,000. -/
theorem concox_short_sentinel_long_parse (payload : List Nat) :
    ((concoxContent payload).length < 12 →
      concoxDecode payload = concoxSentinel) ∧
    (12 ≤ (concoxContent payload).length →
      concoxDecode payload =
        { device_id := String.mk (bytesToHex ((concoxContent payload).take 4)),
          latitude := mkRat (int32be (((concoxContent payload).drop 4).take 4)) 1000000,
          longitude := mkRat (int32be (((concoxContent payload).drop 8).take 4)) 1000000,
          event_type := some (JsonValue.str "concox") }) := by
  constructor
  · intro h
    simp only [concoxDecode]
    rw [if_pos h]
  · intro h
    simp only [concoxDecode]
    rw [if_neg (Nat.not_lt.mpr h)]

/-- C6 witness: the empty payload (content shorter than 12 bytes) decodes
to the sentinel, and the base64 encoding of the 12 bytes `00..0b` decodes
to device `00010203` with the fixed-point coordinates. -/
theorem concox_short_sentinel_long_parse_witness :
    concoxDecode [] = concoxSentinel ∧
    concoxDecode (asciiBytes "AAECAwQFBgcICQoL") =
      { device_id := "00010203",
        latitude := mkRat 67438087 1000000,
        longitude := mkRat 134810123 1000000,
        event_type := some (JsonValue.str "concox") } := by
  constructor
  · exact (concox_short_sentinel_long_parse []).1 (by decide)
  · have h := (concox_short_sentinel_long_parse (asciiBytes "AAECAwQFBgcICQoL")).2 (by decide)
    rw [h]
    with_unfolding_all rfl

/-- C10 counterexample: twelve `!` bytes are not valid base64, yet the
decoder does not fall back to parsing them as a raw 12-byte binary record:
the lenient base64 decoder silently discards the non-alphabet bytes,
decodes them to the empty byte string, and the sentinel is returned instead
of the hex device id `21212121` the claim predicts. -/
theorem concox_nonbase64_sentinel :
    b64decodeLenient (List.replicate 12 33) = some [] ∧
    concoxDecode (List.replicate 12 33) = concoxSentinel ∧
    (concoxDecode (List.replicate 12 33)).device_id ≠
      String.mk (bytesToHex ((List.replicate 12 33).take 4)) := by
  refine ⟨by decide, by with_unfolding_all rfl, ?_⟩
  with_unfolding_all decide

/-- C10 (amended): the raw-bytes fallback applies only when the lenient
base64 decoder actually raises (discarded non-alphabet bytes can instead
yield a short or empty decoding and hence the sentinel); when it does
raise, a raw payload of at least 12 bytes is parsed as the binary record
and a shorter one yields the sentinel. -/
theorem concox_raw_fallback_on_b64_error (payload : List Nat)
    (h : b64decodeLenient payload = none) :
    (payload.length < 12 → concoxDecode payload = concoxSentinel) ∧
    (12 ≤ payload.length →
      concoxDecode payload =
        { device_id := String.mk (bytesToHex (payload.take 4)),
          latitude := mkRat (int32be ((payload.drop 4).take 4)) 1000000,
          longitude := mkRat (int32be ((payload.drop 8).take 4)) 1000000,
          event_type := some (JsonValue.str "concox") }) := by
  have hc : concoxContent payload = payload := by
    simp only [concoxContent, h]
  constructor
  · intro hlen
    simp only [concoxDecode, hc]
    rw [if_pos hlen]
  · intro hlen
    simp only [concoxDecode, hc]
    rw [if_neg (Nat.not_lt.mpr hlen)]

/-- C10 witness: `b"a" ++ b"!" * 12` has 13 raw bytes and one base64 data
character, so base64 decoding raises and the raw bytes are parsed (device
id `61212121`); `b"abc"` also makes base64 raise, has fewer than 12 raw
bytes, and yields the sentinel. -/
theorem concox_raw_fallback_on_b64_error_witness :
    concoxDecode (97 :: List.replicate 12 33) =
      { device_id := "61212121",
        latitude := mkRat 555819297 1000000,
        longitude := mkRat 555819297 1000000,
        event_type := some (JsonValue.str "concox") } ∧
    concoxDecode (asciiBytes "abc") = concoxSentinel := by
  constructor
  · have h := (concox_raw_fallback_on_b64_error (97 :: List.replicate 12 33) (by decide)).2
      (by decide)
    rw [h]
    with_unfolding_all rfl
  · exact (concox_raw_fallback_on_b64_error (asciiBytes "abc") (by decide)).1 (by decide)

/-- C2 (code bug): the Queclink encode/decode pair is not a round trip.
`simulate_payload` writes speed en course at comma fields 13 and 14 (as its
own format comment documents) while `decode_message` reads them at fields
11 and 12, which are always empty in an encoded frame, so decoding an
encoded fixture raises `ValueError` from `float("")` instead of returning
the original position. -/
theorem queclink_roundtrip_raises_on_fixture :
    queclinkDecode (queclinkSimulate
      { device_id := "dev1", latitude := 40, longitude := -3,
        speed := some 50, course := some 180 }) =
      .error (.valueError "could not convert string to float: ") := by
  with_unfolding_all rfl

/-- C5: dispatch with a channel outside the fixed set routes to no
provider and fails with the unsupported-channel `ValueError`; dispatch of a
`push` message invokes exactly the push provider and returns its result,
and symmetrically for `email` and `sms`. -/
theorem dispatch_channel_routing (d : NotificationDispatcher) (m : NotificationMessage) :
    (m.channel ∉ (["email", "sms", "push"] : List String) →
      routeOf m.channel = none ∧
      dispatch d m = .error (.valueError ("Canal no soportado: " ++ m.channel))) ∧
    (m.channel = "push" →
      routeOf m.channel = some .push ∧ dispatch d m = .ok (pushSend d.push_provider m)) ∧
    (m.channel = "email" →
      routeOf m.channel = some .email ∧ dispatch d m = .ok (emailSend d.email_provider m)) ∧
    (m.channel = "sms" →
      routeOf m.channel = some .sms ∧ dispatch d m = .ok (smsSend d.sms_provider m)) := by
  refine ⟨?_, ?_, ?_, ?_⟩
  · intro hn
    have he : m.channel ≠ "email" := by intro h; exact hn (by simp [h])
    have hs : m.channel ≠ "sms" := by intro h; exact hn (by simp [h])
    have hp : m.channel ≠ "push" := by intro h; exact hn (by simp [h])
    have hr : routeOf m.channel = none := by
      simp only [routeOf, if_neg he, if_neg hs, if_neg hp]
    exact ⟨hr, by simp only [dispatch, hr]⟩
  · intro h
    have hr : routeOf m.channel = some .push := by simp [routeOf, h]
    exact ⟨hr, by simp only [dispatch, hr]⟩
  · intro h
    have hr : routeOf m.channel = some .email := by simp [routeOf, h]
    exact ⟨hr, by simp only [dispatch, hr]⟩
  · intro h
    have hr : routeOf m.channel = some .sms := by simp [routeOf, h]
    exact ⟨hr, by simp only [dispatch, hr]⟩

/-- C5 witness: with the default providers, a `carrier-pigeon` message
fails with the unsupported-channel error and routes nowhere, while a `push`
message returns exactly the push provider result (APNs platform, the
metadata device token as target). -/
theorem dispatch_channel_routing_witness :
    (routeOf "carrier-pigeon" = none ∧
      dispatch
        ⟨⟨"noreply@gps.local"⟩, ⟨"+10000000000"⟩, ⟨none, none⟩⟩
        { channel := "carrier-pigeon", recipient := "r" } =
        .error (.valueError "Canal no soportado: carrier-pigeon")) ∧
    (routeOf "push" = some .push ∧
      dispatch
        ⟨⟨"noreply@gps.local"⟩, ⟨"+10000000000"⟩, ⟨none, none⟩⟩
        { channel := "push", recipient := "r", subject := some "alert",
          metadata := [("device_token", "tok")] } =
        .ok (.pushResult "apns" "tok" (some "alert"))) := by
  constructor
  · have h := (dispatch_channel_routing
      ⟨⟨"noreply@gps.local"⟩, ⟨"+10000000000"⟩, ⟨none, none⟩⟩
      { channel := "carrier-pigeon", recipient := "r" }).1 (by decide)
    exact h
  · have h := (dispatch_channel_routing
      ⟨⟨"noreply@gps.local"⟩, ⟨"+10000000000"⟩, ⟨none, none⟩⟩
      { channel := "push", recipient := "r", subject := some "alert",
        metadata := [("device_token", "tok")] }).2.1 rfl
    exact ⟨h.1, by rw [h.2]; with_unfolding_all rfl⟩

/-- C8: the generic fallback decode of `"dev-1,40.0,-3.0,50.0"` (a line
with no protocol tag separator) yields device `dev-1`, latitude `40.0`,
longitude `-3.0`, speed `50.0` and course absent; and for every line with
at least three comma-separated fields whose latitude and longitude parse,
the record succeeds with the optional speed and course given by
`genericOptField`, which degrades an empty or unparsable field to absent
instead of failing the record. -/
theorem generic_fallback_decode (message : String)
    (hlen : 3 ≤ (pySplit ',' message.data).length)
    (la lo : ℚ)
    (hla : pyFloatStr (pySplit ',' message.data)[1]! = .ok la)
    (hlo : pyFloatStr (pySplit ',' message.data)[2]! = .ok lo) :
    decodeMessage "dev-1,40.0,-3.0,50.0" =
      .ok { device_id := "dev-1", latitude := 40, longitude := -3, speed := some 50 } ∧
    genericDecode message =
      .ok { device_id := String.mk (pySplit ',' message.data)[0]!,
            latitude := la, longitude := lo,
            speed :=
              match ((pySplit ',' message.data).drop 3).head? with
              | none => none
              | some f => genericOptField f,
            course :=
              match (((pySplit ',' message.data).drop 3).drop 1).head? with
              | none => none
              | some f => genericOptField f } := by
  constructor
  · with_unfolding_all rfl
  · simp only [genericDecode, if_neg (Nat.not_lt.mpr hlen), hla, hlo, Except.bind]

/-- C8 witness: the line `a,1,2,zz,7.5` has an unparsable speed field,
which degrades to absent while the parsable course is kept and the record
still succeeds. -/
theorem generic_fallback_decode_witness :
    genericDecode "a,1,2,zz,7.5" =
      .ok { device_id := "a", latitude := 1, longitude := 2,
            speed := none, course := some (mkRat 15 2) } := by
  have h := (generic_fallback_decode "a,1,2,zz,7.5" (by decide) 1 2
    (by with_unfolding_all rfl) (by with_unfolding_all rfl)).2
  rw [h]
  with_unfolding_all rfl

/-- C3 counterexample: the claim says decode fails with a decode error when
the bytes cannot be parsed into the expected shape, but the tag-value
adapter substitutes a sentinel dict on any parse failure: `b"not json"` is
not valid JSON, yet `decode_with("teltonika", ...)` succeeds with the
complete sentinel position instead of raising. -/
theorem teltonika_unparseable_returns_sentinel :
    jsonParse "not json" = none ∧
    decodeWith "teltonika" (asciiBytes "not json") =
      .ok { device_id := "unknown", latitude := 0, longitude := 0 } := by
  constructor
  · with_unfolding_all rfl
  · with_unfolding_all rfl

/-- C3 (amended): decode fails with the unsupported-protocol `ValueError`
exactly when the lowered tag is not in the adapter table (so recognition is
case-insensitive); when the bytes themselves cannot be parsed, the
tag-value adapter does not fail but returns the complete sentinel position
(never a partially populated record). -/
theorem decode_error_semantics (protocol : String) (payload : List Nat) :
    (adapterLookup (String.mk (pyLower protocol.data)) = none →
      decodeWith protocol payload =
        .error (.valueError ("Protocolo no soportado: " ++ protocol))) ∧
    ((match utf8Decode payload with
      | none => True
      | some cs => jsonParse (String.mk cs) = none) →
      decodeWith "teltonika" payload =
        .ok { device_id := "unknown", latitude := 0, longitude := 0 }) := by
  constructor
  · intro h
    simp only [decodeWith, getAdapter, h]
  · intro h
    have hg : getAdapter "teltonika" = .ok .teltonika := by with_unfolding_all rfl
    have hfb : teltonikaFromJson teltonikaFallback =
        .ok { device_id := "unknown", latitude := 0, longitude := 0 } := by
      with_unfolding_all rfl
    simp only [decodeWith, hg, adapterDecode, teltonikaDecode]
    cases hu : utf8Decode payload with
    | none => exact hfb
    | some cs =>
      rw [hu] at h
      simp only [h]
      exact hfb

/-- C3 witness: the unknown tag `gt06` raises the unsupported-protocol
error, and the unparseable teltonika payload `b"not a frame"` decodes to
the sentinel. -/
theorem decode_error_semantics_witness :
    decodeWith "gt06" [] = .error (.valueError "Protocolo no soportado: gt06") ∧
    decodeWith "teltonika" (asciiBytes "not a frame") =
      .ok { device_id := "unknown", latitude := 0, longitude := 0 } := by
  constructor
  · exact (decode_error_semantics "gt06" []).1 (by with_unfolding_all rfl)
  · exact (decode_error_semantics "gt06" (asciiBytes "not a frame")).2
      (by with_unfolding_all rfl)

/-- C7 counterexample: the claim says a missing latitude key defaults to
zero, but decoding the well-formed record `b"{\"id\": \"a\"}"` raises
`TypeError` from `float(None)` instead. -/
theorem teltonika_missing_lat_raises :
    decodeWith "teltonika" (asciiBytes ("\x7b\"id\": \"a\"\x7d")) =
      .error (.typeError "float() argument must be a string or a real number, not NoneType") := by
  with_unfolding_all rfl

/-- C7 (amended): on a json object record, missing optional keys (speed,
course, event, ts) map to absent and a truthy device-supplied `ts` string
that parses overrides the absent-means-now default, but the numeric keys
`lat` and `lon` are not defaulted: a missing `lat` raises `TypeError`
(the zero defaults apply only through the whole-payload fallback dict). -/
theorem teltonika_field_defaults (fields : JsonFields) :
    (pyDictGet fields "lat" = none →
      teltonikaFromJson (.obj fields) =
        .error (.typeError "float() argument must be a string or a real number, not NoneType")) ∧
    (∀ la lo : ℚ,
      pyFloatV (pyDictGet fields "lat") = .ok la →
      pyFloatV (pyDictGet fields "lon") = .ok lo →
      pyDictGet fields "speed" = none →
      pyDictGet fields "course" = none →
      pyDictGet fields "event" = none →
      pyDictGet fields "ts" = none →
      teltonikaFromJson (.obj fields) =
        .ok { device_id := pyStrOpt (pyDictGet fields "id"),
              latitude := la, longitude := lo }) ∧
    (∀ (la lo : ℚ) (s : String) (t : IsoDateTime),
      pyFloatV (pyDictGet fields "lat") = .ok la →
      pyFloatV (pyDictGet fields "lon") = .ok lo →
      pyDictGet fields "speed" = none →
      pyDictGet fields "course" = none →
      pyDictGet fields "event" = none →
      pyDictGet fields "ts" = some (JsonValue.str s) →
      s ≠ "" →
      fromIso s = some t →
      teltonikaFromJson (.obj fields) =
        .ok { device_id := pyStrOpt (pyDictGet fields "id"),
              latitude := la, longitude := lo, timestamp := some t }) := by
  refine ⟨?_, ?_, ?_⟩
  · intro h
    simp only [teltonikaFromJson, h, pyFloatV, Except.bind]
  · intro la lo hla hlo hs hc he ht
    simp only [teltonikaFromJson, hla, hlo, hs, hc, he, teltonikaTs, ht, Except.bind]
  · intro la lo s t hla hlo hs hc he ht hne hiso
    simp only [teltonikaFromJson, hla, hlo, hs, hc, he, teltonikaTs, ht, Except.bind]
    simp only [pyTruthy, hne, hiso]
    simp [hne]

/-- C7 witness: a record without `lat` raises `TypeError`; a record with
only id/lat/lon decodes with speed, course, event and timestamp absent; and
a record with a device-supplied `ts` carries that parsed timestamp. -/
theorem teltonika_field_defaults_witness :
    teltonikaFromJson (.obj (.cons "id" (.str "a") .nil)) =
      .error (.typeError "float() argument must be a string or a real number, not NoneType") ∧
    teltonikaFromJson (.obj (.cons "id" (.str "a")
        (.cons "lat" (.num true (mkRat 3 2)) (.cons "lon" (.num false 2) .nil)))) =
      .ok { device_id := "a", latitude := mkRat 3 2, longitude := 2 } ∧
    teltonikaFromJson (.obj (.cons "id" (.str "a")
        (.cons "lat" (.num true (mkRat 3 2)) (.cons "lon" (.num false 2)
          (.cons "ts" (.str "2024-01-01T00:00:00") .nil))))) =
      .ok { device_id := "a", latitude := mkRat 3 2, longitude := 2,
            timestamp := some ⟨2024, 1, 1, 0, 0, 0, 0⟩ } := by
  refine ⟨?_, ?_, ?_⟩
  · exact (teltonika_field_defaults (.cons "id" (.str "a") .nil)).1 rfl
  · have h := (teltonika_field_defaults (.cons "id" (.str "a")
        (.cons "lat" (.num true (mkRat 3 2)) (.cons "lon" (.num false 2) .nil)))).2.1
      (mkRat 3 2) 2
      (by with_unfolding_all rfl) (by with_unfolding_all rfl) rfl rfl rfl rfl
    rw [h]
    with_unfolding_all rfl
  · have h := (teltonika_field_defaults (.cons "id" (.str "a")
        (.cons "lat" (.num true (mkRat 3 2)) (.cons "lon" (.num false 2)
          (.cons "ts" (.str "2024-01-01T00:00:00") .nil))))).2.2
      (mkRat 3 2) 2 "2024-01-01T00:00:00" ⟨2024, 1, 1, 0, 0, 0, 0⟩
      (by with_unfolding_all rfl) (by with_unfolding_all rfl) rfl rfl rfl rfl
      (by decide) (by with_unfolding_all rfl)
    rw [h]
    with_unfolding_all rfl

/-- C9 counterexample: the generic fallback path copies the device field
verbatim, so the line `,1.0,2.0` (an empty device field) decodes to a
canonical position with an empty device identifier, contradicting the
claimed invariant. -/
theorem generic_decode_empty_device_id :
    decodeMessage ",1.0,2.0" =
      .ok { device_id := "", latitude := 1, longitude := 2 } := by
  with_unfolding_all rfl

/-- Inversion helper: a successful four-step `Except` chain ending in a
record keeps the precomputed device id. -/
theorem exceptChain4_device_id (e1 e2 : Except PyErr ℚ) (e3 e4 : Except PyErr (Option ℚ))
    (d : String) (ev : Option JsonValue) (pos : DecodedPosition)
    (h : (e1.bind fun la => e2.bind fun lo => e3.bind fun sp => e4.bind fun co =>
        Except.ok { device_id := d, latitude := la, longitude := lo,
                    speed := sp, course := co, event_type := ev }) = .ok pos) :
    pos.device_id = d := by
  cases e1 <;> cases e2 <;> cases e3 <;> cases e4 <;> simp_all [Except.bind]
  rw [← h]

/-- Inversion helper: the five-step variant used by the tag-value adapter
(the last step binds the timestamp). -/
theorem exceptChain5_device_id (e1 e2 : Except PyErr ℚ) (e3 e4 : Except PyErr (Option ℚ))
    (e5 : Except PyErr (Option IsoDateTime)) (d : String) (ev : Option JsonValue)
    (pos : DecodedPosition)
    (h : (e1.bind fun la => e2.bind fun lo => e3.bind fun sp => e4.bind fun co =>
        e5.bind fun ts =>
        Except.ok { device_id := d, latitude := la, longitude := lo,
                    speed := sp, course := co, event_type := ev,
                    timestamp := ts }) = .ok pos) :
    pos.device_id = d := by
  cases e1 <;> cases e2 <;> cases e3 <;> cases e4 <;> cases e5 <;> simp_all [Except.bind]
  rw [← h]

/-- C9 (amended): the fixed-layout binary path always produces a non-empty
device identifier (the sentinel `unknown` or 8 hex characters), while the
generic fallback, fixed-position and tag-value paths copy the identifier
from the payload device field — so their identifier is non-empty exactly
when that field renders non-empty, and an empty payload field yields an
empty identifier. -/
theorem device_id_nonempty_sources (payload : List Nat) (m : String) (fields : JsonFields) :
    (concoxDecode payload).device_id ≠ "" ∧
    (∀ pos, genericDecode m = .ok pos →
      pos.device_id = String.mk (pySplit ',' m.data)[0]!) ∧
    (∀ pos, queclinkDecode payload = .ok pos →
      pos.device_id =
        (if (pySplit ',' (utf8DecodeIgnore payload)).length > 1 then
          String.mk (pySplit ',' (utf8DecodeIgnore payload))[1]!
        else "unknown")) ∧
    (∀ pos, teltonikaFromJson (.obj fields) = .ok pos →
      pos.device_id = pyStrOpt (pyDictGet fields "id")) := by
  refine ⟨?_, ?_, ?_, ?_⟩
  · unfold concoxDecode
    by_cases hlen : (concoxContent payload).length < 12
    · rw [if_pos hlen]
      decide
    · rw [if_neg hlen]
      have h12 : 12 ≤ (concoxContent payload).length := Nat.not_lt.mp hlen
      cases hd : concoxContent payload with
      | nil => rw [hd] at h12; simp at h12
      | cons b rest =>
        show String.mk (hexDigit (b / 16) :: hexDigit (b % 16) ::
          bytesToHex (rest.take 3)) ≠ ""
        intro hcontra
        exact List.noConfusion (congrArg String.data hcontra)
  · intro pos h
    simp only [genericDecode] at h
    by_cases hlen : (pySplit ',' m.data).length < 3
    · rw [if_pos hlen] at h
      simp at h
    · rw [if_neg hlen] at h
      rcases h1 : pyFloatStr (pySplit ',' m.data)[1]! with e | la <;> rw [h1] at h
      · simp [Except.bind] at h
      rcases h2 : pyFloatStr (pySplit ',' m.data)[2]! with e | lo <;> rw [h2] at h
      · simp [Except.bind] at h
      simp only [Except.bind, Except.ok.injEq] at h
      rw [← h]
  · intro pos h
    simp only [queclinkDecode] at h
    exact exceptChain4_device_id _ _ _ _ _ _ pos h
  · intro pos h
    simp only [teltonikaFromJson] at h
    exact exceptChain5_device_id _ _ _ _ _ _ _ pos h

/-- C9 witness: the binary path gives `unknown` on an empty payload; the
generic line `a,1,2`, the fixed-position frame with device `devX`, and a
tag-value object with id `tt` all carry their payload device field. -/
theorem device_id_nonempty_sources_witness :
    (concoxDecode []).device_id ≠ "" ∧
    ({ device_id := "a", latitude := 1, longitude := 2 } :
        DecodedPosition).device_id = String.mk (pySplit ',' ("a,1,2" : String).data)[0]! ∧
    ({ device_id := "devX", latitude := 1, longitude := 2,
        event_type := some (JsonValue.str "queclink") } : DecodedPosition).device_id =
      (if (pySplit ',' (utf8DecodeIgnore (asciiBytes "+RESP:GTFRI,devX,,,,,,1.0,2.0"))).length > 1 then
        String.mk (pySplit ',' (utf8DecodeIgnore (asciiBytes "+RESP:GTFRI,devX,,,,,,1.0,2.0")))[1]!
      else "unknown") ∧
    ({ device_id := "tt", latitude := 1, longitude := 2 } : DecodedPosition).device_id =
      pyStrOpt (pyDictGet (.cons "id" (.str "tt")
        (.cons "lat" (.num false 1) (.cons "lon" (.num false 2) .nil))) "id") := by
  refine ⟨?_, ?_, ?_, ?_⟩
  · exact (device_id_nonempty_sources [] "" .nil).1
  · exact (device_id_nonempty_sources [] "a,1,2" .nil).2.1
      { device_id := "a", latitude := 1, longitude := 2 } (by with_unfolding_all rfl)
  · exact (device_id_nonempty_sources (asciiBytes "+RESP:GTFRI,devX,,,,,,1.0,2.0") "" .nil).2.2.1
      { device_id := "devX", latitude := 1, longitude := 2,
        event_type := some (JsonValue.str "queclink") } (by with_unfolding_all rfl)
  · exact (device_id_nonempty_sources [] "" (.cons "id" (.str "tt")
      (.cons "lat" (.num false 1) (.cons "lon" (.num false 2) .nil)))).2.2.2
      { device_id := "tt", latitude := 1, longitude := 2 } (by with_unfolding_all rfl)

/-- C1 counterexample: a line that is not valid UTF-8 is decoded to text
before the `try` block, so the exception escapes the per-message guard and
terminates the read loop: after one well-formed line, the malformed byte
line `[0xff]`, and a third well-formed line, only one position has been
persisted and the loop is dead (the third line is never processed),
contradicting the claim that no malformed message ever terminates the
connection. -/
theorem handle_client_invalid_utf8_terminates :
    handleClient (fun _ => true)
      [asciiBytes "dev-1,40.0,-3.0", [255], asciiBytes "dev-1,41.0,-3.0"] =
      ([{ device_id := "dev-1", latitude := 40, longitude := -3 }], true) ∧
    (handleClient (fun _ => true)
      [asciiBytes "dev-1,40.0,-3.0", [255], asciiBytes "dev-1,41.0,-3.0"]).1.length = 1 := by
  constructor
  · with_unfolding_all rfl
  · with_unfolding_all rfl

/-- C1 (amended): for connections whose lines are all valid UTF-8 text, the
read loop never crashes: every line whose decode or persistence raises is
dropped and the loop continues, and the persisted positions are exactly the
per-line successes in order. -/
theorem handle_client_text_lines (saveOk : DecodedPosition → Bool)
    (lines : List (List Nat))
    (h : ∀ l ∈ lines, (utf8Decode l).isSome) :
    handleClient saveOk lines =
      (lines.filterMap (fun l =>
        (utf8Decode l).bind (fun cs =>
          match decodeMessage (String.mk (pyStrip cs)) with
          | .error _ => none
          | .ok pos => if saveOk pos then some pos else none)), false) := by
  induction lines with
  | nil => rfl
  | cons l rest ih =>
    have hl := h l (by simp)
    obtain ⟨cs, hcs⟩ := Option.isSome_iff_exists.mp hl
    have hrest := ih (fun x hx => h x (by simp [hx]))
    simp only [handleClient, hcs, List.filterMap_cons, Option.bind, hrest]
    cases hstep : decodeMessage (String.mk (pyStrip cs)) with
    | error e => simp
    | ok pos =>
      by_cases hs : saveOk pos = true
      · simp [hs]
      · simp [Bool.not_eq_true] at hs
        simp [hs]

/-- C1 witness: a connection feeding one well-formed line, one malformed
text line and a second well-formed line persists exactly the two
well-formed positions (one after the first two lines) and the loop never
crashes — the second well-formed line is still persisted. -/
theorem handle_client_text_lines_witness :
    handleClient (fun _ => true)
      [asciiBytes "dev-1,40.0,-3.0", asciiBytes "garbage",
       asciiBytes "dev-2,1.0,2.0,bad,7.5"] =
      ([{ device_id := "dev-1", latitude := 40, longitude := -3 },
        { device_id := "dev-2", latitude := 1, longitude := 2,
          course := some (mkRat 15 2) }], false) ∧
    (handleClient (fun _ => true)
      [asciiBytes "dev-1,40.0,-3.0", asciiBytes "garbage"]).1.length = 1 := by
  constructor
  · have h := handle_client_text_lines (fun _ => true)
      [asciiBytes "dev-1,40.0,-3.0", asciiBytes "garbage",
       asciiBytes "dev-2,1.0,2.0,bad,7.5"] (by decide)
    rw [h]
    with_unfolding_all rfl
  · have h := handle_client_text_lines (fun _ => true)
      [asciiBytes "dev-1,40.0,-3.0", asciiBytes "garbage"] (by decide)
    rw [h]
    with_unfolding_all rfl

/-- Removing every element of `rem` from `l` one at a time is filtering on
non-membership in `rem`. -/
theorem foldl_remove_eq_filter (rem : List Nat) :
    ∀ l : List Nat,
      rem.foldl (fun cs c => cs.filter (fun x => x ≠ c)) l =
        l.filter (fun x => decide (x ∉ rem)) := by
  induction rem with
  | nil => intro l; simp
  | cons r rs ih =>
    intro l
    simp only [List.foldl_cons, ih, List.filter_filter]
    apply List.filter_congr
    intro x _
    by_cases hr : x = r
    · simp [hr]
    · by_cases hm : x ∈ rs <;> simp [hr, hm]

/-- C4: one `broadcast` call attempts a send to every currently registered
subscriber (in particular a failure does not prevent the attempts after
it); the failing subscribers are removed only after the full pass, leaving
exactly those whose send succeeded; the payload is appended to the shared
stream queue afterwards; a subscriber whose send failed is no longer
registered, receives no delivery attempt on the next publish, and once
unregistered is never attempted again by any broadcast. -/
theorem broadcast_fanout (α : Type) (env : Nat → α → Bool) (st : BState α) (p : α) :
    (broadcast env st p).1 = st.connections ∧
    (broadcast env st p).2.connections = st.connections.filter (fun c => env c p) ∧
    (broadcast env st p).2.queue = st.queue ++ [p] ∧
    (∀ s ∈ st.connections, env s p = false →
      s ∉ (broadcast env st p).2.connections ∧
      ∀ q, s ∉ (broadcast env (broadcast env st p).2 q).1) ∧
    (∀ (w : Nat) (st' : BState α) (q : α), w ∉ st'.connections →
      w ∉ (broadcast env st' q).1 ∧ w ∉ (broadcast env st' q).2.connections) := by
  have hconn : (broadcast env st p).2.connections =
      st.connections.filter (fun c => env c p) := by
    show (st.connections.filter (fun c => !env c p)).foldl
        (fun cs c => cs.filter (fun x => x ≠ c)) st.connections =
      st.connections.filter (fun c => env c p)
    rw [foldl_remove_eq_filter]
    apply List.filter_congr
    intro x hx
    by_cases he : env x p
    · simp [he, List.mem_filter, hx]
    · simp [he, List.mem_filter, hx]
  refine ⟨rfl, hconn, rfl, ?_, ?_⟩
  · intro s _ hfail
    have hs : s ∉ (broadcast env st p).2.connections := by
      rw [hconn]
      simp [List.mem_filter, hfail]
    exact ⟨hs, fun q => hs⟩
  · intro w st' q hw
    refine ⟨hw, ?_⟩
    intro hmem
    show False
    have : w ∈ st'.connections.filter (fun c => !env c q) ∨ w ∈ st'.connections := by
      right
      have hc : (broadcast env st' q).2.connections =
          st'.connections.filter (fun c => env c q) := by
        show (st'.connections.filter (fun c => !env c q)).foldl
            (fun cs c => cs.filter (fun x => x ≠ c)) st'.connections =
          st'.connections.filter (fun c => env c q)
        rw [foldl_remove_eq_filter]
        apply List.filter_congr
        intro x hx
        by_cases he : env x q
        · simp [he, List.mem_filter, hx]
        · simp [he, List.mem_filter, hx]
      rw [hc] at hmem
      exact (List.mem_filter.mp hmem).1
    rcases this with h | h
    · exact hw ((List.mem_filter.mp h).1)
    · exact hw h

/-- C4 witness: with subscribers 1, 2, 3 where sends to 2 always fail, one
publish attempts all three, prunes exactly subscriber 2 afterwards, queues
the payload, and a second publish attempts only 1 and 3. -/
theorem broadcast_fanout_witness :
    (broadcast (fun c _ => decide (c ≠ 2)) (BState.mk [1, 2, 3] ([] : List Nat)) 7).1 =
      [1, 2, 3] ∧
    (broadcast (fun c _ => decide (c ≠ 2)) (BState.mk [1, 2, 3] ([] : List Nat)) 7).2.connections =
      [1, 3] ∧
    (broadcast (fun c _ => decide (c ≠ 2)) (BState.mk [1, 2, 3] ([] : List Nat)) 7).2.queue =
      [7] ∧
    2 ∉ (broadcast (fun c _ => decide (c ≠ 2))
      (broadcast (fun c _ => decide (c ≠ 2)) (BState.mk [1, 2, 3] ([] : List Nat)) 7).2 8).1 := by
  have h := broadcast_fanout Nat (fun c _ => decide (c ≠ 2))
    (BState.mk [1, 2, 3] ([] : List Nat)) 7
  refine ⟨h.1, ?_, h.2.2.1, ?_⟩
  · rw [h.2.1]
    decide
  · exact ((h.2.2.2.1 2 (by decide) (by decide)).2 8)
